import Mathlib

/-!
Formal model of the interview-assistant application (`app.py`).

Python strings are modelled as lists of characters (`Str`).  The two vendor
endpoints (Whisper speech-to-text and the chat completion) are opaque external
dependencies and are modelled as oracles returning `Except`: `Except.error e`
models the Python call raising an exception whose `str` is `e`.  Streamlit
session state is the record `AppState`; the three event handlers of `main`
(recorded-audio transcription, uploaded-file transcription, and the
Generate-Answers button) are modelled as functions from the oracles and the
current state to the new state, the user-facing message, and the log lines
emitted.
-/

set_option maxRecDepth 100000

/-- Character-list model of a Python string. -/
abbrev Str := List Char

/-- Oracle for the chat-completion endpoint: arguments are the model name, the
system prompt and the user message (the transcript); `Except.error e` models the
call raising an exception with text `e`. -/
abbrev Chat := Str → Str → Str → Except Str Str

/-- Oracle for the Whisper transcription endpoint: audio bytes in, transcript
out; `Except.error e` models the call raising an exception with text `e`. -/
abbrev WhisperApi := Str → Except Str Str

deriving instance DecidableEq for Except

/-- `MODELS` from app.py line 18. -/
def MODELS : List Str :=
  ["gpt-4o-mini".data, "gpt-4o".data, "gpt-4-turbo".data, "gpt-3.5-turbo".data]

/-- `DEFAULT_MODEL = MODELS[0]` from app.py line 19. -/
def DEFAULT_MODEL : Str := "gpt-4o-mini".data

/-- `DEFAULT_POSITION` from app.py line 20. -/
def DEFAULT_POSITION : Str := "Python Developer".data

/-- `SYS_PREFIX` from app.py line 23. -/
def SYS_PREFIX : Str := "You are interviewing for a ".data

/-- `SYS_SUFFIX` from app.py line 24 (a triple-quoted Python string whose
escape sequences denote newlines). -/
def SYS_SUFFIX : Str :=
  " position.\nYou will receive an audio transcription of the question. It may not be complete. You need to understand the question and write an answer to it.\n".data

/-- `SHORT_INSTRUCTION` from app.py line 25. -/
def SHORT_INSTRUCTION : Str :=
  "Concisely respond, limiting your answer to 50 words.".data

/-- `LONG_INSTRUCTION` from app.py line 26. -/
def LONG_INSTRUCTION : Str :=
  "Before answering, take a deep breath and think one step at a time. Believe the answer in no more than 150 words.".data

/-- Fixed part of the job-posting block: the f-string
`f"\n\nJob Posting:\n{job_posting}\n\n"` (app.py line 195) is
`JOB_HEADER ++ job_posting ++ BLOCK_END`. -/
def JOB_HEADER : Str := "\n\nJob Posting:\n".data

/-- Fixed part of the resume block: the f-string
`f"\n\nResume:\n{resume}\n\n"` (app.py line 197) is
`RESUME_HEADER ++ resume ++ BLOCK_END`. -/
def RESUME_HEADER : Str := "\n\nResume:\n".data

/-- Trailing blank line closing both optional blocks. -/
def BLOCK_END : Str := "\n\n".data

/-- System prompt built exactly as in `generate_answer` (app.py lines 193-198):
start from prefix + position + suffix, append the job-posting block when
`job_posting` is truthy (non-empty), append the resume block when `resume` is
truthy, and finally append the instruction selected by the `short_answer`
flag. -/
def systemPrompt (short_answer : Bool) (position job_posting resume : Str) : Str :=
  let base := SYS_PREFIX ++ position ++ SYS_SUFFIX
  let withJob := if job_posting = [] then base else base ++ (JOB_HEADER ++ job_posting ++ BLOCK_END)
  let withResume := if resume = [] then withJob else withJob ++ (RESUME_HEADER ++ resume ++ BLOCK_END)
  withResume ++ (if short_answer then SHORT_INSTRUCTION else LONG_INSTRUCTION)

/-- Log line `"Transcribing audio using Whisper API..."` (app.py line 161). -/
def TRANSCRIBE_DEBUG_LOG : Str := "Transcribing audio using Whisper API...".data

/-- Log line `"Audio transcription completed."` (app.py line 179). -/
def TRANSCRIBE_DONE_LOG : Str := "Audio transcription completed.".data

/-- Log line `f"Transcription error: {error}"` (app.py line 182). -/
def TRANSCRIBE_ERR_LOG : Str := "Transcription error: ".data

/-- Log line `f"Answer generation error: {error}"` (app.py line 212). -/
def GENERATE_ERR_LOG : Str := "Answer generation error: ".data

/-- Observable outcome of one call to `transcribe_audio`: the returned (or
raised) value, the log lines written, and whether the temporary audio file
written at the start of the call has been deleted again by the time the call
returns. -/
structure TranscribeOutcome where
  result : Except Str Str
  log : List Str
  tempFileDeleted : Bool
deriving DecidableEq

/-- `transcribe_audio` (app.py lines 160-183).  The function logs a debug line,
writes the audio bytes to a temporary file created with `delete=False`, and
calls the Whisper endpoint on it.  On success it runs `os.unlink` on the
temporary file, logs the completion line and returns the transcript.  When the
endpoint raises, control jumps to the `except` clause before the `os.unlink`
line runs, and `delete=False` means the `NamedTemporaryFile` context manager
does not remove the file either, so the temporary file is still on disk; the
error is logged and re-raised. -/
def transcribe_audio (whisper : WhisperApi) (audio_bytes : Str) : TranscribeOutcome :=
  match whisper audio_bytes with
  | .ok t =>
      { result := .ok t
        log := [TRANSCRIBE_DEBUG_LOG, TRANSCRIBE_DONE_LOG]
        tempFileDeleted := true }
  | .error e =>
      { result := .error e
        log := [TRANSCRIBE_DEBUG_LOG, TRANSCRIBE_ERR_LOG ++ e]
        tempFileDeleted := false }

/-- `generate_answer` (app.py lines 185-213): build the system prompt, call the
chat endpoint with it and the transcript, and return the answer; when the call
raises, log the error and re-raise.  Returns the result together with the log
lines written. -/
def generate_answer (chat : Chat) (transcript : Str) (short_answer : Bool)
    (model position job_posting resume : Str) : Except Str Str × List Str :=
  match chat model (systemPrompt short_answer position job_posting resume) transcript with
  | .ok answer => (.ok answer, [])
  | .error e => (.error e, [GENERATE_ERR_LOG ++ e])

/-- User-facing message shown by a handler (st.success / st.warning /
st.error). -/
inductive Msg where
  | success : Str → Msg
  | warning : Str → Msg
  | error : Str → Msg
deriving DecidableEq

/-- Streamlit session state (app.py lines 219-224), together with the pending
recorded-audio bytes (`st.session_state.audio_data`, already base64-decoded),
when present. -/
structure AppState where
  transcript : Str
  short_answer : Str
  long_answer : Str
  audio_data : Option Str
deriving DecidableEq

/-- Message `"Recording transcribed successfully!"` (app.py line 255). -/
def REC_SUCCESS_MSG : Str := "Recording transcribed successfully!".data

/-- Message prefix of `f"Error transcribing recording: {str(e)}"` (app.py
line 259). -/
def REC_ERR_MSG : Str := "Error transcribing recording: ".data

/-- Message `"File transcribed successfully!"` (app.py line 276). -/
def FILE_SUCCESS_MSG : Str := "File transcribed successfully!".data

/-- Message prefix of `f"Error transcribing file: {str(e)}"` (app.py
line 278). -/
def FILE_ERR_MSG : Str := "Error transcribing file: ".data

/-- Message `"Please record or upload audio first"` (app.py line 282). -/
def NO_TRANSCRIPT_WARNING : Str := "Please record or upload audio first".data

/-- Message `"Answers generated successfully!"` (app.py line 302). -/
def GEN_SUCCESS_MSG : Str := "Answers generated successfully!".data

/-- Message prefix of `f"Error generating answers: {str(e)}"` (app.py
line 304). -/
def GEN_ERR_MSG : Str := "Error generating answers: ".data

/-- Recorded-audio handler (app.py lines 249-259): when `audio_data` is in
session state, transcribe it; on success store the transcript, show a success
message and delete `audio_data`; when `transcribe_audio` raises, show the
error message and leave the state untouched. -/
def handleRecording (whisper : WhisperApi) (s : AppState) :
    AppState × Option Msg × List Str :=
  match s.audio_data with
  | none => (s, none, [])
  | some bytes =>
    let out := transcribe_audio whisper bytes
    match out.result with
    | .ok t =>
        ({ s with transcript := t, audio_data := none },
         some (.success REC_SUCCESS_MSG), out.log)
    | .error e =>
        (s, some (.error (REC_ERR_MSG ++ e)), out.log)

/-- Uploaded-file handler (app.py lines 269-278), run when the Transcribe
button is pressed with a file present: transcribe the uploaded bytes; on
success store the transcript and show a success message; when
`transcribe_audio` raises, show the error message and leave the state
untouched. -/
def handleUpload (whisper : WhisperApi) (file_bytes : Str) (s : AppState) :
    AppState × Msg × List Str :=
  let out := transcribe_audio whisper file_bytes
  match out.result with
  | .ok t => ({ s with transcript := t }, .success FILE_SUCCESS_MSG, out.log)
  | .error e => (s, .error (FILE_ERR_MSG ++ e), out.log)

/-- Generate-Answers button handler (app.py lines 280-304): with an empty
transcript, warn and do nothing.  Otherwise call `generate_answer` with the
short flag and assign the result to `short_answer`, then call it with the long
flag and assign the result to `long_answer`; when either call raises, the
`except` clause shows the error message and the assignments after the raising
call do not run. -/
def handleGenerate (chat : Chat) (model position job_posting resume : Str)
    (s : AppState) : AppState × Msg × List Str :=
  if s.transcript = [] then
    (s, .warning NO_TRANSCRIPT_WARNING, [])
  else
    match generate_answer chat s.transcript true model position job_posting resume with
    | (.error e, log1) => (s, .error (GEN_ERR_MSG ++ e), log1)
    | (.ok a, log1) =>
      let s1 := { s with short_answer := a }
      match generate_answer chat s1.transcript false model position job_posting resume with
      | (.error e, log2) => (s1, .error (GEN_ERR_MSG ++ e), log1 ++ log2)
      | (.ok b, log2) =>
          ({ s1 with long_answer := b }, .success GEN_SUCCESS_MSG, log1 ++ log2)

/-- Number of positions at which `pat` occurs as a contiguous substring of
`s`. -/
def countOcc (pat s : Str) : Nat :=
  ((List.range (s.length + 1)).filter (fun i => pat.isPrefixOf (s.drop i))).length

/-- The sequentially built system prompt equals the one-shot concatenation of
its six parts. -/
theorem systemPrompt_eq (short_answer : Bool) (position job_posting resume : Str) :
    systemPrompt short_answer position job_posting resume
      = SYS_PREFIX ++ position ++ SYS_SUFFIX
        ++ ((if job_posting = [] then [] else JOB_HEADER ++ job_posting ++ BLOCK_END)
        ++ ((if resume = [] then [] else RESUME_HEADER ++ resume ++ BLOCK_END)
        ++ (if short_answer then SHORT_INSTRUCTION else LONG_INSTRUCTION))) := by
  unfold systemPrompt
  by_cases hj : job_posting = [] <;> by_cases hr : resume = [] <;>
    cases short_answer <;> simp [hj, hr, List.append_assoc]

/-- The answer returned by `generate_answer` is the chat endpoint applied to
the built system prompt and the transcript. -/
theorem generate_answer_fst (chat : Chat) (transcript : Str) (short_answer : Bool)
    (model position job_posting resume : Str) :
    (generate_answer chat transcript short_answer model position job_posting resume).1
      = chat model (systemPrompt short_answer position job_posting resume) transcript := by
  unfold generate_answer
  cases hc : chat model (systemPrompt short_answer position job_posting resume) transcript <;>
    simp [hc]

/-- Claim C1: for every transcript, length flag, model, position, job posting
and resume, `generate_answer` deterministically builds exactly one system
prompt — the concatenation, in this order, of the fixed prefix, the position,
the fixed suffix, the job-posting block (present only when the job posting is
non-empty), the resume block (present only when the resume is non-empty) and
the length instruction selected by the flag — and its result is the chat
endpoint applied to exactly that prompt and the transcript. -/
theorem generate_answer_prompt_concat (chat : Chat) (transcript : Str)
    (short_answer : Bool) (model position job_posting resume : Str) :
    (generate_answer chat transcript short_answer model position job_posting resume).1
      = chat model
          ( SYS_PREFIX ++ position ++ SYS_SUFFIX
            ++ ((if job_posting = [] then [] else JOB_HEADER ++ job_posting ++ BLOCK_END)
            ++ ((if resume = [] then [] else RESUME_HEADER ++ resume ++ BLOCK_END)
            ++ (if short_answer then SHORT_INSTRUCTION else LONG_INSTRUCTION))))
          transcript := by
  rw [generate_answer_fst, systemPrompt_eq]

/-- Counterexample to claim C2 as stated: with position `"Z"` and non-empty
job posting `"Z"`, the system prompt contains the job-posting string `"Z"` at
two distinct positions (once as the position, once inside its block), not
exactly once. -/
theorem systemPrompt_occurrence_not_unique :
    "Z".data ≠ ([] : Str)
    ∧ countOcc "Z".data (systemPrompt true "Z".data "Z".data []) = 2 := by
  decide

/-- Claim C2 (amended): the system prompt is a pure function of (position,
job_posting, resume, short/long flag); when `job_posting` is empty no
job-posting block is appended and when `resume` is empty no resume block is
appended; when a field is non-empty, its block — which contains the field
verbatim — is appended exactly once, the field occurring verbatim in the
prompt (though its text may occur at further positions when it overlaps other
parts, as the counterexample shows). -/
theorem systemPrompt_pure_blocks (short_answer : Bool)
    (position job_posting resume : Str) :
    systemPrompt short_answer position job_posting resume
      = SYS_PREFIX ++ position ++ SYS_SUFFIX
        ++ ((if job_posting = [] then [] else JOB_HEADER ++ job_posting ++ BLOCK_END)
        ++ ((if resume = [] then [] else RESUME_HEADER ++ resume ++ BLOCK_END)
        ++ (if short_answer then SHORT_INSTRUCTION else LONG_INSTRUCTION)))
    ∧ (∃ a b, systemPrompt short_answer position job_posting resume
        = a ++ job_posting ++ b)
    ∧ (∃ a b, systemPrompt short_answer position job_posting resume
        = a ++ resume ++ b) := by
  refine ⟨systemPrompt_eq short_answer position job_posting resume, ?_, ?_⟩
  · by_cases hj : job_posting = []
    · exact ⟨systemPrompt short_answer position job_posting resume, [],
        by simp [hj]⟩
    · refine ⟨ SYS_PREFIX ++ position ++ SYS_SUFFIX ++ JOB_HEADER,
        BLOCK_END
          ++ ((if resume = [] then [] else RESUME_HEADER ++ resume ++ BLOCK_END)
          ++ (if short_answer then SHORT_INSTRUCTION else LONG_INSTRUCTION)), ?_⟩
      rw [systemPrompt_eq]
      simp [hj, List.append_assoc]
  · by_cases hr : resume = []
    · exact ⟨systemPrompt short_answer position job_posting resume, [],
        by simp [hr]⟩
    · refine ⟨ SYS_PREFIX ++ position ++ SYS_SUFFIX
          ++ ((if job_posting = [] then [] else JOB_HEADER ++ job_posting ++ BLOCK_END)
          ++ RESUME_HEADER),
        BLOCK_END ++ (if short_answer then SHORT_INSTRUCTION else LONG_INSTRUCTION), ?_⟩
      rw [systemPrompt_eq]
      simp [hr, List.append_assoc]

/-- Claim C3: for position `"Backend Engineer"`, empty job posting and empty
resume, with the short-answer flag set, the system prompt ends with the
50-word directive and contains no job-posting section and no resume
section. -/
theorem backend_engineer_short_prompt :
    (SHORT_INSTRUCTION.isSuffixOf
        (systemPrompt true "Backend Engineer".data [] [])) = true
    ∧ countOcc "Job Posting".data (systemPrompt true "Backend Engineer".data [] []) = 0
    ∧ countOcc "Resume".data (systemPrompt true "Backend Engineer".data [] []) = 0 := by
  decide

/-- Claim C4: when a transcription attempt fails — whether for a pending
recording or for an uploaded file — the transcript stored in session state is
left exactly as it was; a previously stored transcript is neither cleared nor
overwritten. -/
theorem transcription_failure_preserves_transcript (whisper : WhisperApi)
    (s : AppState) (bytes file_bytes e e' : Str)
    (hrec : s.audio_data = some bytes)
    (hb : whisper bytes = .error e)
    (hf : whisper file_bytes = .error e') :
    (handleRecording whisper s).1.transcript = s.transcript
    ∧ (handleUpload whisper file_bytes s).1.transcript = s.transcript := by
  unfold handleRecording handleUpload transcribe_audio
  rw [hrec]
  simp [hb, hf]

/-- Witness for claim C4: a concrete failing transcription oracle and a state
holding transcript "old"; both handlers keep "old". -/
theorem transcription_failure_preserves_transcript_witness :
    (handleRecording (fun _ => Except.error "boom".data)
        { transcript := "old".data, short_answer := [], long_answer := [],
          audio_data := some "x".data }).1.transcript = "old".data
    ∧ (handleUpload (fun _ => Except.error "boom".data) "y".data
        { transcript := "old".data, short_answer := [], long_answer := [],
          audio_data := some "x".data }).1.transcript = "old".data := by
  exact transcription_failure_preserves_transcript
    (fun _ => Except.error "boom".data)
    { transcript := "old".data, short_answer := [], long_answer := [],
      audio_data := some "x".data }
    "x".data "y".data "boom".data "boom".data rfl rfl rfl

/-- Claim C6 (exhibit): when the Whisper call raises, `transcribe_audio`
returns with the temporary file still on disk — the `os.unlink` line is
skipped and `delete=False` suppresses automatic cleanup — while on success the
file is deleted.  This contradicts the claim that every call deleting path
runs even on failure. -/
theorem transcribe_audio_leaks_temp_on_failure :
    ( transcribe_audio (fun _ => Except.error "network error".data)
        "bytes".data).tempFileDeleted = false
    ∧ ( transcribe_audio (fun _ => Except.ok "hello".data)
        "bytes".data).tempFileDeleted = true := by
  decide

/-- Counterexample to claim C7 as stated: on a failing transcription of a
recording the user-facing message is the specific
`"Error transcribing recording: <error text>"`, not the generic
`"Transcription failed"`; likewise the generation failure message is
`"Error generating answers: <error text>"`, not
`"Answer generation failed"`. -/
theorem failure_message_not_generic :
    (handleRecording (fun _ => Except.error "boom".data)
        { transcript := "old".data, short_answer := [], long_answer := [],
          audio_data := some "x".data }).2.1
      = some (Msg.error "Error transcribing recording: boom".data)
    ∧ (handleRecording (fun _ => Except.error "boom".data)
        { transcript := "old".data, short_answer := [], long_answer := [],
          audio_data := some "x".data }).2.1
      ≠ some (Msg.error "Transcription failed".data)
    ∧ (handleGenerate (fun _ _ _ => Except.error "boom".data)
        DEFAULT_MODEL DEFAULT_POSITION [] []
        { transcript := "q".data, short_answer := [], long_answer := [],
          audio_data := none }).2.1
      ≠ Msg.error "Answer generation failed".data := by
  decide

/-- Claim C7 (amended): every failure of a transcription or answer-generation
step is caught at the call site, logged with the underlying error text, and
surfaced to the user as a single error message that embeds the underlying
error text — prefixed "Error transcribing recording: " or "Error transcribing
file: " for transcription and "Error generating answers: " for generation —
with no retries and no transient/permanent distinction beyond the embedded
text. -/
theorem failures_caught_logged_surfaced (whisper : WhisperApi) (chat : Chat)
    (s : AppState) (bytes file_bytes model position job_posting resume e : Str)
    (hrec : s.audio_data = some bytes)
    (hb : whisper bytes = .error e)
    (hf : whisper file_bytes = .error e)
    (hT : s.transcript ≠ [])
    (hc : chat model (systemPrompt true position job_posting resume) s.transcript
      = .error e) :
    (handleRecording whisper s).2.1 = some (.error (REC_ERR_MSG ++ e))
    ∧ (handleRecording whisper s).2.2 = [TRANSCRIBE_DEBUG_LOG, TRANSCRIBE_ERR_LOG ++ e]
    ∧ (handleUpload whisper file_bytes s).2.1 = .error (FILE_ERR_MSG ++ e)
    ∧ (handleUpload whisper file_bytes s).2.2 = [TRANSCRIBE_DEBUG_LOG, TRANSCRIBE_ERR_LOG ++ e]
    ∧ (handleGenerate chat model position job_posting resume s).2.1 = .error (GEN_ERR_MSG ++ e)
    ∧ (handleGenerate chat model position job_posting resume s).2.2 = [GENERATE_ERR_LOG ++ e] := by
  unfold handleRecording handleUpload handleGenerate generate_answer transcribe_audio
  rw [hrec]
  simp [hb, hf, hc, hT]

/-- Witness for the amended claim C7: concrete failing oracles with error text
"boom"; the surfaced messages and logs embed "boom" as stated. -/
theorem failures_caught_logged_surfaced_witness :
    (handleRecording (fun _ => Except.error "boom".data)
        { transcript := "q".data, short_answer := [], long_answer := [],
          audio_data := some "x".data }).2.1
      = some (.error (REC_ERR_MSG ++ "boom".data))
    ∧ (handleRecording (fun _ => Except.error "boom".data)
        { transcript := "q".data, short_answer := [], long_answer := [],
          audio_data := some "x".data }).2.2
      = [TRANSCRIBE_DEBUG_LOG, TRANSCRIBE_ERR_LOG ++ "boom".data]
    ∧ (handleUpload (fun _ => Except.error "boom".data) "y".data
        { transcript := "q".data, short_answer := [], long_answer := [],
          audio_data := some "x".data }).2.1
      = .error (FILE_ERR_MSG ++ "boom".data)
    ∧ (handleUpload (fun _ => Except.error "boom".data) "y".data
        { transcript := "q".data, short_answer := [], long_answer := [],
          audio_data := some "x".data }).2.2
      = [TRANSCRIBE_DEBUG_LOG, TRANSCRIBE_ERR_LOG ++ "boom".data]
    ∧ (handleGenerate (fun _ _ _ => Except.error "boom".data)
        DEFAULT_MODEL DEFAULT_POSITION [] []
        { transcript := "q".data, short_answer := [], long_answer := [],
          audio_data := some "x".data }).2.1
      = .error (GEN_ERR_MSG ++ "boom".data)
    ∧ (handleGenerate (fun _ _ _ => Except.error "boom".data)
        DEFAULT_MODEL DEFAULT_POSITION [] []
        { transcript := "q".data, short_answer := [], long_answer := [],
          audio_data := some "x".data }).2.2
      = [GENERATE_ERR_LOG ++ "boom".data] := by
  exact failures_caught_logged_surfaced
    (fun _ => Except.error "boom".data) (fun _ _ _ => Except.error "boom".data)
    { transcript := "q".data, short_answer := [], long_answer := [],
      audio_data := some "x".data }
    "x".data "y".data DEFAULT_MODEL DEFAULT_POSITION [] [] "boom".data
    rfl rfl rfl (by decide) rfl

/-- Claim C5: for a fixed transcript and fixed parameters the short-answer
call (flag true) and the long-answer call (flag false) share no state: the
answers stored by the Generate-Answers handler are exactly the results of the
two stand-alone `generate_answer` calls on the original state's transcript and
parameters, so running the short-answer call first neither feeds into nor
alters what the long-answer call produces. -/
theorem short_long_calls_independent (chat : Chat)
    (model position job_posting resume : Str) (s : AppState) (a b : Str)
    (hT : s.transcript ≠ [])
    (ha : (generate_answer chat s.transcript true model position job_posting resume).1
      = .ok a)
    (hb : (generate_answer chat s.transcript false model position job_posting resume).1
      = .ok b) :
    ((handleGenerate chat model position job_posting resume s).1).short_answer = a
    ∧ ((handleGenerate chat model position job_posting resume s).1).long_answer = b := by
  rw [generate_answer_fst] at ha hb
  unfold handleGenerate generate_answer
  simp [ha, hb, hT]

/-- Witness for claim C5: a concrete chat oracle answering "ans" for every
request; both stored answers are "ans". -/
theorem short_long_calls_independent_witness :
    ((handleGenerate (fun _ _ _ => Except.ok "ans".data)
        DEFAULT_MODEL DEFAULT_POSITION [] []
        { transcript := "q".data, short_answer := "s0".data,
          long_answer := "l0".data, audio_data := none }).1).short_answer
      = "ans".data
    ∧ ((handleGenerate (fun _ _ _ => Except.ok "ans".data)
        DEFAULT_MODEL DEFAULT_POSITION [] []
        { transcript := "q".data, short_answer := "s0".data,
          long_answer := "l0".data, audio_data := none }).1).long_answer
      = "ans".data := by
  exact short_long_calls_independent (fun _ _ _ => Except.ok "ans".data)
    DEFAULT_MODEL DEFAULT_POSITION [] []
    { transcript := "q".data, short_answer := "s0".data,
      long_answer := "l0".data, audio_data := none }
    "ans".data "ans".data (by decide) rfl rfl

/-- Claim C8: on a generation request that completes without error on a
non-empty stored transcript, both the short-answer and the long-answer session
fields are overwritten with the freshly generated texts, whatever they held
before. -/
theorem generation_overwrites_both_answers (chat : Chat)
    (model position job_posting resume : Str) (s : AppState) (a b : Str)
    (hT : s.transcript ≠ [])
    (ha : chat model (systemPrompt true position job_posting resume) s.transcript
      = .ok a)
    (hb : chat model (systemPrompt false position job_posting resume) s.transcript
      = .ok b) :
    handleGenerate chat model position job_posting resume s
      = ({ s with short_answer := a, long_answer := b },
         .success GEN_SUCCESS_MSG, []) := by
  unfold handleGenerate generate_answer
  simp [ha, hb, hT]

/-- Witness for claim C8: a concrete chat oracle answering "fresh"; the stale
fields "s0" and "l0" are both overwritten with "fresh". -/
theorem generation_overwrites_both_answers_witness :
    handleGenerate (fun _ _ _ => Except.ok "fresh".data)
        DEFAULT_MODEL DEFAULT_POSITION [] []
        { transcript := "q".data, short_answer := "s0".data,
          long_answer := "l0".data, audio_data := none }
      = ({ transcript := "q".data, short_answer := "fresh".data,
           long_answer := "fresh".data, audio_data := none },
         .success GEN_SUCCESS_MSG, []) := by
  exact generation_overwrites_both_answers (fun _ _ _ => Except.ok "fresh".data)
    DEFAULT_MODEL DEFAULT_POSITION [] []
    { transcript := "q".data, short_answer := "s0".data,
      long_answer := "l0".data, audio_data := none }
    "fresh".data "fresh".data (by decide) rfl rfl

/-- Claim C9: a generation request on an empty stored transcript shows the
warning, makes no call to the chat endpoint (the outcome is the same for every
chat oracle), and leaves the whole state — in particular the short-answer and
long-answer fields — unchanged. -/
theorem empty_transcript_warns_without_generating (chat chat' : Chat)
    (model position job_posting resume : Str) (s : AppState)
    (hT : s.transcript = []) :
    handleGenerate chat model position job_posting resume s
      = (s, .warning NO_TRANSCRIPT_WARNING, [])
    ∧ handleGenerate chat model position job_posting resume s
      = handleGenerate chat' model position job_posting resume s := by
  unfold handleGenerate
  simp [hT]

/-- Witness for claim C9: a state with an empty transcript and two different
chat oracles; the handler warns and leaves the state as it was under both. -/
theorem empty_transcript_warns_without_generating_witness :
    handleGenerate (fun _ _ _ => Except.ok "x".data)
        DEFAULT_MODEL DEFAULT_POSITION [] []
        { transcript := [], short_answer := "s0".data,
          long_answer := "l0".data, audio_data := none }
      = ({ transcript := [], short_answer := "s0".data,
           long_answer := "l0".data, audio_data := none },
         .warning NO_TRANSCRIPT_WARNING, [])
    ∧ handleGenerate (fun _ _ _ => Except.ok "x".data)
        DEFAULT_MODEL DEFAULT_POSITION [] []
        { transcript := [], short_answer := "s0".data,
          long_answer := "l0".data, audio_data := none }
      = handleGenerate (fun _ _ _ => Except.error "y".data)
        DEFAULT_MODEL DEFAULT_POSITION [] []
        { transcript := [], short_answer := "s0".data,
          long_answer := "l0".data, audio_data := none } := by
  exact empty_transcript_warns_without_generating
    (fun _ _ _ => Except.ok "x".data) (fun _ _ _ => Except.error "y".data)
    DEFAULT_MODEL DEFAULT_POSITION [] []
    { transcript := [], short_answer := "s0".data,
      long_answer := "l0".data, audio_data := none }
    rfl

/-- Claim C10: a generation request is not atomic across the two answers: the
short answer is stored before the long-answer call runs, so when the
long-answer call fails the short-answer field already holds the freshly
generated text while the long-answer field keeps its previous value and the
failure message is shown. -/
theorem generation_not_atomic (chat : Chat)
    (model position job_posting resume : Str) (s : AppState) (a e : Str)
    (hT : s.transcript ≠ [])
    (ha : chat model (systemPrompt true position job_posting resume) s.transcript
      = .ok a)
    (he : chat model (systemPrompt false position job_posting resume) s.transcript
      = .error e) :
    handleGenerate chat model position job_posting resume s
      = ({ s with short_answer := a },
         .error (GEN_ERR_MSG ++ e), [GENERATE_ERR_LOG ++ e]) := by
  unfold handleGenerate generate_answer
  simp [ha, he, hT]

/-- Witness for claim C10: a concrete chat oracle that answers "short" on the
short prompt and fails with "boom" on the long prompt; the short-answer field
ends up "short" while the long-answer field keeps "l0". -/
theorem generation_not_atomic_witness :
    handleGenerate
        (fun _ sp _ => if sp = systemPrompt false "p".data [] []
          then Except.error "boom".data else Except.ok "short".data)
        DEFAULT_MODEL "p".data [] []
        { transcript := "q".data, short_answer := "s0".data,
          long_answer := "l0".data, audio_data := none }
      = ({ transcript := "q".data, short_answer := "short".data,
           long_answer := "l0".data, audio_data := none },
         .error (GEN_ERR_MSG ++ "boom".data), [GENERATE_ERR_LOG ++ "boom".data]) := by
  exact generation_not_atomic
    (fun _ sp _ => if sp = systemPrompt false "p".data [] []
      then Except.error "boom".data else Except.ok "short".data)
    DEFAULT_MODEL "p".data [] []
    { transcript := "q".data, short_answer := "s0".data,
      long_answer := "l0".data, audio_data := none }
    "short".data "boom".data (by decide) (by decide) (by decide)
